import Mathlib

/-!
Verification development for the `tds_project_1` repository.

The repository is a small Flask RAG service:
* `src/api/app.py` — the HTTP handler `answer_question_api`, which validates
  the request, computes an image reference for the LLM, runs the pipeline
  stages imported from `rag.py` (embedding, retrieval, prompting, completion,
  response sanitization), and renders the final JSON response, including a
  local fallback path when the sanitized model output is missing or empty;
  plus the startup block that loads the FAISS index and metadata.
* `src/api/faiss_index/compress.py` — the offline utility
  `remove_embeddings_from_metadata_json` that strips the `embedding` key from
  every document of a metadata list.

The collaborators that live in `rag.py` are not part of the repository
snapshot; the handler is therefore embedded as a function of an explicit
environment (`PipelineEnv`) carrying the outcome of each external call
(embedding, retrieval, completion, `clean_json_response`) and the
`clean_content_for_prompt` text-cleaning function, exactly as the handler
consumes them.  All control flow, string constants, status codes, list
slicing and truncation arithmetic are translated from `app.py` line by line.
-/

/-- Python `s.startswith(pre)` on code points: `pre` is a prefix of `s`. -/
def py_startswith (s pre : String) : Bool :=
  pre.data.isPrefixOf s.data

/-- MIME sniffing chain of `app.py` lines 48–54: the payload string's leading
characters select the MIME type, defaulting to `application/octet-stream`. -/
def sniff_mime (s : String) : String :=
  if py_startswith s "/9j/" then "image/jpeg"
  else if py_startswith s "iVBORw0KGgo" then "image/png"
  else if py_startswith s "UklGR" then "image/webp"
  else "application/octet-stream"

/-- Image handling of `app.py` lines 46–61: a falsy (absent or empty) payload
produces no attachment; a payload starting with `http://` or `https://` is
passed through as the external URL; anything else becomes a base64 data URI
with the sniffed MIME type. -/
def compute_image_url (payload : Option String) : Option String :=
  match payload with
  | none => none
  | some s =>
    if s = "" then none
    else if py_startswith s "http://" || py_startswith s "https://" then some s
    else some ("data:" ++ sniff_mime s ++ ";base64," ++ s)

/-- Python `s.rsplit(' ', 1)[0]` on a list of characters: everything strictly
before the last space, or the whole list when it contains no space. -/
def pyRsplitHead : List Char → List Char
  | [] => []
  | c :: t =>
    if t.contains ' ' then c :: pyRsplitHead t
    else if c = ' ' then []
    else c :: t

/-- Snippet truncation of `app.py` line 97:
`s[:150].rsplit(' ', 1)[0] + '...' if len(s) > 150 else s`
applied to the cleaned document content. -/
def truncate_snippet (cleaned : String) : String :=
  if 150 < cleaned.data.length then
    String.mk (pyRsplitHead (cleaned.data.take 150)) ++ "..."
  else cleaned

/-- The truncation of `truncate_snippet` cuts in the middle of a word: the
kept prefix has length `k`, the cut is strictly inside the content, and the
characters on both sides of the cut are non-spaces. -/
def splits_mid_word (cleaned : String) : Bool :=
  let k := (pyRsplitHead (cleaned.data.take 150)).length
  decide (150 < cleaned.data.length) && decide (0 < k) &&
    !(cleaned.data.getD (k - 1) ' ' == ' ') &&
    !(cleaned.data.getD k ' ' == ' ')

/-- A cited source link `{url, text}` as produced by the handler. -/
structure Link where
  url : String
  text : String
deriving DecidableEq

/-- A retrieved document as the handler reads it: `doc["url"]` is accessed
unconditionally, `doc.get("content", "")` defaults to the empty string. -/
structure RagDoc where
  url : String
  content : Option String
deriving DecidableEq

/-- The value returned by `clean_json_response` as the handler consumes it:
an optional `answer` field and a `links` field passed through to the caller. -/
structure AnswerData where
  answer : Option String
  links : List Link
deriving DecidableEq

/-- The request as the handler reads it: the JSON flag, `data.get("question")`
and `data.get("image")`. -/
structure ApiRequest where
  is_json : Bool
  question : Option String
  image : Option String
deriving DecidableEq

/-- A rendered Flask response: either `jsonify({"error": msg}), status` or
`jsonify({"answer": ..., "links": ...}), status`. -/
inductive ApiResponse where
  | err (msg : String) (status : Nat)
  | ans (answer : String) (links : List Link) (status : Nat)
deriving DecidableEq

/-- HTTP status of a response. -/
def resp_status : ApiResponse → Nat
  | .err _ s => s
  | .ans _ _ s => s

/-- Links array of a response; an error-shaped response has none. -/
def resp_links : ApiResponse → List Link
  | .err _ _ => []
  | .ans _ ls _ => ls

/-- Body text of a response: the error message or the answer string. -/
def resp_body_text : ApiResponse → String
  | .err m _ => m
  | .ans a _ _ => a

/-- Outcomes of the external calls the handler makes into `rag.py`, one
request trace: `get_embedding`, `retrieve_and_prioritize_documents`,
`build_prompt`/`query_chat_completion` (wrapped in a single `try`),
`clean_json_response`, and the `clean_content_for_prompt` cleaning function. -/
structure PipelineEnv where
  clean_content : String → String
  embed : Except String Unit
  retrieve : Except String (List RagDoc)
  complete : Except String String
  sanitize : Option AnswerData

/-- Python truthiness test `not x` for an optional string: `None` and the
empty string are falsy. -/
def py_falsy : Option String → Bool
  | none => true
  | some s => s = ""

/-- Python test `not answer_data or not answer_data.get("answer")` of
`app.py` line 90. -/
def py_falsy_ans : Option AnswerData → Bool
  | none => true
  | some ad => py_falsy ad.answer

/-- Content access `doc.get("content", "")` of `app.py` line 96. -/
def doc_content (d : RagDoc) : String :=
  d.content.getD ""

/-- One fallback link (`app.py` lines 96–98): the document's URL with the
truncated snippet of its cleaned content. -/
def fallback_link_of (cleanf : String → String) (d : RagDoc) : Link :=
  ⟨d.url, truncate_snippet (cleanf (doc_content d))⟩

/-- Fallback links loop of `app.py` line 95:
`for doc in relevant_docs[:min(2, len(relevant_docs))]`. -/
def fallback_links (cleanf : String → String) (docs : List RagDoc) : List Link :=
  (docs.take (min 2 docs.length)).map (fallback_link_of cleanf)

/-- Fallback answer preamble of `app.py` line 92. -/
def fallback_base : String :=
  "I couldn't generate a specific answer from the provided context. However, here's some potentially relevant information:\n"

/-- One iteration of the answer-building loop of `app.py` lines 101–102. -/
def render_link (acc : String) (l : Link) : String :=
  acc ++ "- \"" ++ l.text ++ "\" (Source: " ++ l.url ++ ")\n"

/-- Fallback answer text of `app.py` lines 100–104: the loop over the links
when there are any, the no-snippet sentence otherwise. -/
def fallback_answer_text (links : List Link) : String :=
  if links.isEmpty then fallback_base ++ "No relevant specific snippets found to cite."
  else links.foldl render_link fallback_base

/-- The whole fallback response of `app.py` lines 92–106, with the trailing
`.strip()` of line 106. -/
def fallback_response (cleanf : String → String) (docs : List RagDoc) : ApiResponse :=
  let links := fallback_links cleanf docs
  .ans (fallback_answer_text links).trim links 200

/-- Pipeline stages of `app.py` lines 63–110, from embedding onwards, given
the trace of external-call outcomes. -/
def pipeline_step (env : PipelineEnv) : ApiResponse :=
  match env.embed with
  | Except.error e => .ans ("Error generating question embedding: " ++ e) [] 500
  | Except.ok _ =>
    match env.retrieve with
    | Except.error e => .ans ("Error retrieving relevant information: " ++ e) [] 500
    | Except.ok docs =>
      if docs = [] then
        .ans "Sorry, I couldn't find any relevant information in the knowledge base." [] 200
      else
        match env.complete with
        | Except.error e => .ans ("Error communicating with AI model: " ++ e) [] 500
        | Except.ok _raw =>
          match env.sanitize with
          | none => fallback_response env.clean_content docs
          | some ad =>
            match ad.answer with
            | none => fallback_response env.clean_content docs
            | some a =>
              if a = "" then fallback_response env.clean_content docs
              else .ans ((a.replace "\n" " ").trim) ad.links 200

/-- The HTTP handler `answer_question_api` of `app.py` lines 27–110:
JSON check, question check, readiness check, image handling, then the
pipeline stages. -/
def answer_question_api (assets_loaded : Bool) (req : ApiRequest)
    (env : PipelineEnv) : ApiResponse :=
  if req.is_json = false then .err "Request must be JSON" 400
  else if py_falsy req.question then .err "Missing 'question' in request body" 400
  else if assets_loaded = false then
    .ans "Server is still initializing. Please try again in a moment." [] 503
  else
    let _image_url_for_llm := compute_image_url req.image
    pipeline_step env

/-- Outcome of the import-time startup block: either the process serves with
the loaded assets, or it exits. -/
inductive StartupResult (α : Type) where
  | serving (assets : α)
  | exited (code : Nat)
deriving DecidableEq

/-- Startup block of `app.py` lines 112–118: `load_index_and_metadata`
success stores the assets; any failure calls `sys.exit(1)`. -/
def startup {α : Type} (load_result : Except String α) : StartupResult α :=
  match load_result with
  | Except.ok a => StartupResult.serving a
  | Except.error _ => StartupResult.exited 1

/-- Per-document stripping step of `compress.py` lines 32–35.  A Python dict
is modelled as an association list with (by construction in Python) unique
keys, so `del doc["embedding"]` removes exactly the bindings whose key is
`"embedding"`. -/
def strip_embedding {α : Type} (doc : List (String × α)) : List (String × α) :=
  doc.filter (fun kv => kv.1 != "embedding")

/-- Membership test `"embedding" in doc` of `compress.py` line 33. -/
def has_embedding {α : Type} (doc : List (String × α)) : Bool :=
  doc.any (fun kv => kv.1 == "embedding")

/-- Core transform of `remove_embeddings_from_metadata_json`
(`compress.py` lines 31–37): the stripped metadata list together with
`modified_count`, the number of documents that carried an `embedding` key. -/
def remove_embeddings_from_metadata {α : Type}
    (metadata : List (List (String × α))) : List (List (String × α)) × Nat :=
  (metadata.map strip_embedding,
   metadata.foldl (fun n doc => if has_embedding doc then n + 1 else n) 0)

/-- Concrete single document used by concrete instances below. -/
def doc₁ : RagDoc := ⟨"https://example.com/a", some "alpha beta"⟩

/-- Concrete two-document list. -/
def doc₂ : RagDoc := ⟨"https://example.com/b", some "gamma delta"⟩

/-- Concrete valid request. -/
def req₁ : ApiRequest := ⟨true, some "what is x?", none⟩

/-- Concrete request with an absent question. -/
def req_noq : ApiRequest := ⟨true, none, none⟩

/-- Trace in which every stage succeeds, retrieval returns a single document,
and `clean_json_response` returns a falsy value, driving the fallback path. -/
def env_fallback₁ : PipelineEnv :=
  ⟨fun s => s, Except.ok (), Except.ok [doc₁], Except.ok "not json", none⟩

/-- Trace identical to `env_fallback₁` but with two retrieved documents. -/
def env_fallback₂ : PipelineEnv :=
  ⟨fun s => s, Except.ok (), Except.ok [doc₁, doc₂], Except.ok "not json", none⟩

/-- Trace in which embedding generation raises an exception with message
`boom`. -/
def env_boom : PipelineEnv :=
  ⟨fun s => s, Except.error "boom", Except.ok [], Except.ok "", none⟩

/-- Trace in which retrieval succeeds with an empty document list. -/
def env_empty : PipelineEnv :=
  ⟨fun s => s, Except.ok (), Except.ok [], Except.ok "", none⟩

/-- A 151-character single word: content whose truncation cuts mid-word. -/
def long_word : String := String.mk (List.replicate 151 'a')

/-- A 161-character content with a space: 100 `a`s, a space, 60 `b`s. -/
def spaced_content : String :=
  String.mk (List.replicate 100 'a' ++ ' ' :: List.replicate 60 'b')

/-- Concrete one-document metadata list with an `embedding` key. -/
def metadata₁ : List (List (String × String)) :=
  [[("url", "https://example.com/a"), ("embedding", "[0.1]"), ("content", "alpha")]]

/-! ## Helper lemmas -/

theorem lookup_strip_of_ne {α : Type} (doc : List (String × α)) (k : String)
    (hk : k ≠ "embedding") : (strip_embedding doc).lookup k = doc.lookup k := by
  induction doc with
  | nil => rfl
  | cons kv t ih =>
    obtain ⟨k', v⟩ := kv
    simp only [strip_embedding, List.filter_cons] at ih ⊢
    by_cases hk' : k' = "embedding"
    · have hkk : (k == k') = false := by
        rw [hk']; exact beq_eq_false_iff_ne.mpr hk
      have hb : (k' != "embedding") = false := by simp [hk']
      simp only [hb, if_false, List.lookup, hkk]
      exact ih
    · have hb : (k' != "embedding") = true := bne_iff_ne.mpr hk'
      simp only [hb, if_true, List.lookup]
      cases hkk : k == k' with
      | false => exact ih
      | true => rfl

theorem lookup_strip_embedding {α : Type} (doc : List (String × α)) :
    (strip_embedding doc).lookup "embedding" = none := by
  induction doc with
  | nil => rfl
  | cons kv t ih =>
    obtain ⟨k', v⟩ := kv
    simp only [strip_embedding, List.filter_cons] at ih ⊢
    by_cases hk' : k' = "embedding"
    · have hb : (k' != "embedding") = false := by simp [hk']
      simp only [hb, if_false]
      exact ih
    · have hb : (k' != "embedding") = true := bne_iff_ne.mpr hk'
      have hkk : ("embedding" == k') = false :=
        beq_eq_false_iff_ne.mpr (fun h => hk' h.symm)
      simp only [hb, if_true, List.lookup, hkk]
      exact ih

theorem strip_embedding_idem {α : Type} (doc : List (String × α)) :
    strip_embedding (strip_embedding doc) = strip_embedding doc := by
  simp [strip_embedding, List.filter_filter]

theorem has_embedding_strip {α : Type} (doc : List (String × α)) :
    has_embedding (strip_embedding doc) = false := by
  simp only [has_embedding, strip_embedding, List.any_filter]
  simp [bne]

theorem count_foldl_const {α : Type} (l : List (List (String × α))) (n : Nat)
    (h : ∀ d ∈ l, has_embedding d = false) :
    l.foldl (fun n doc => if has_embedding doc then n + 1 else n) n = n := by
  induction l generalizing n with
  | nil => rfl
  | cons d t ih =>
    have hd : has_embedding d = false := h d (List.mem_cons_self d t)
    simp only [List.foldl_cons, hd, if_false]
    exact ih n (fun d' hd' => h d' (List.mem_cons_of_mem d hd'))

/-! ## Claims about `compress.py` -/

/-- C7: `remove_embeddings_from_metadata_json` preserves the length and order
of the metadata list, each output document is the corresponding input
document with the `embedding` key removed, every other field (including
`url` and `content`) is unchanged, and the `embedding` key is gone. -/
theorem C7_strip_embedding_frame {α : Type} (metadata : List (List (String × α))) :
    (remove_embeddings_from_metadata metadata).1.length = metadata.length ∧
    (∀ i : Nat, (remove_embeddings_from_metadata metadata).1[i]?
        = metadata[i]?.map strip_embedding) ∧
    (∀ doc : List (String × α), ∀ k : String, k ≠ "embedding" →
        (strip_embedding doc).lookup k = doc.lookup k) ∧
    (∀ doc : List (String × α), (strip_embedding doc).lookup "embedding" = none) := by
  refine ⟨?_, ?_, ?_, ?_⟩
  · simp [remove_embeddings_from_metadata]
  · intro i
    simp only [remove_embeddings_from_metadata]
    exact List.getElem?_map strip_embedding metadata i
  · exact fun doc k hk => lookup_strip_of_ne doc k hk
  · exact fun doc => lookup_strip_embedding doc

/-- Witness for C7: the concrete one-document metadata list `metadata₁`. -/
theorem C7_strip_embedding_frame_witness :
    (remove_embeddings_from_metadata metadata₁).1.length = metadata₁.length ∧
    (remove_embeddings_from_metadata metadata₁).1[0]?
      = metadata₁[0]?.map strip_embedding ∧
    ("url" ≠ "embedding" ∧
      (strip_embedding [("url", "u"), ("embedding", "e")]).lookup "url"
        = [("url", "u"), ("embedding", "e")].lookup "url") :=
  ⟨(C7_strip_embedding_frame metadata₁).1,
   (C7_strip_embedding_frame metadata₁).2.1 0,
   by decide,
   (C7_strip_embedding_frame metadata₁).2.2.1
     [("url", "u"), ("embedding", "e")] "url" (by decide)⟩

/-- C10: the embedding-removal transform is idempotent: per-document
stripping leaves an already-stripped document unchanged, and running the
whole transform on already-stripped metadata returns it unchanged with a
modified count of zero. -/
theorem C10_strip_embedding_idempotent {α : Type}
    (metadata : List (List (String × α))) :
    (∀ doc : List (String × α),
        strip_embedding (strip_embedding doc) = strip_embedding doc) ∧
    remove_embeddings_from_metadata ((remove_embeddings_from_metadata metadata).1)
      = ((remove_embeddings_from_metadata metadata).1, 0) := by
  refine ⟨fun doc => strip_embedding_idem doc, ?_⟩
  simp only [remove_embeddings_from_metadata, Prod.mk.injEq]
  constructor
  · rw [List.map_map]
    exact List.map_congr_left (fun d _ => strip_embedding_idem d)
  · refine count_foldl_const _ 0 ?_
    intro d hd
    rcases List.mem_map.mp hd with ⟨d', _, rfl⟩
    exact has_embedding_strip d'

/-! ## Lemmas about snippet truncation -/

theorem pyRsplitHead_no_space (l : List Char) (h : l.contains ' ' = false) :
    pyRsplitHead l = l := by
  cases l with
  | nil => rfl
  | cons c t =>
    rw [List.contains_cons, Bool.or_eq_false_iff] at h
    have hc : ¬(c = ' ') := fun hc => by simp [hc] at h
    have h2 : ' ' ∉ t := by simpa using h.2
    simp [pyRsplitHead, h.2, h2, hc]

theorem pyRsplitHead_pref (l : List Char) : pyRsplitHead l <+: l := by
  induction l with
  | nil => exact List.nil_prefix
  | cons c t ih =>
    cases ht : t.contains ' ' with
    | true =>
      simp only [pyRsplitHead, ht, if_true]
      exact List.cons_prefix_cons.mpr ⟨rfl, ih⟩
    | false =>
      simp only [pyRsplitHead, ht]
      by_cases hc : c = ' '
      · simp only [Bool.false_eq_true, if_false, hc, if_true]
        exact List.nil_prefix
      · simp only [Bool.false_eq_true, if_false, hc]
        exact List.prefix_refl _

theorem pyRsplitHead_decomp (l : List Char) (h : l.contains ' ' = true) :
    ∃ rest, l = pyRsplitHead l ++ ' ' :: rest ∧ rest.contains ' ' = false := by
  induction l with
  | nil => simp at h
  | cons c t ih =>
    cases ht : t.contains ' ' with
    | true =>
      obtain ⟨rest, heq, hrest⟩ := ih ht
      refine ⟨rest, ?_, hrest⟩
      simp only [pyRsplitHead, ht, if_true, List.cons_append]
      exact congrArg (c :: ·) heq
    | false =>
      have hc : c = ' ' := by
        rw [List.contains_cons, ht, Bool.or_false] at h
        exact (beq_iff_eq.mp h).symm
      refine ⟨t, ?_, ht⟩
      have h2 : ' ' ∉ t := by simpa using ht
      simp [pyRsplitHead, ht, h2, hc]

theorem getD_take_eq (l : List Char) (n i : Nat) (d : Char) (h : i < n) :
    (l.take n).getD i d = l.getD i d := by
  induction l generalizing n i with
  | nil => simp
  | cons c t ih =>
    cases n with
    | zero => omega
    | succ n =>
      cases i with
      | zero => simp
      | succ i =>
        rw [List.take_succ_cons, List.getD_cons_succ, List.getD_cons_succ]
        exact ih n i (by omega)

theorem getD_append_length (p q : List Char) (x d : Char) :
    (p ++ x :: q).getD p.length d = x := by
  induction p with
  | nil => rfl
  | cons a p ih =>
    rw [List.cons_append, List.length_cons, List.getD_cons_succ]
    exact ih

/-! ## Claim C2: fallback snippet truncation -/

set_option maxRecDepth 40000 in
/-- C2 counterexample: the claim says the truncation never splits mid-word,
but on a cleaned content that is a single 151-character word the code keeps
the raw 150-character prefix (there is no preceding space to cut back to)
and appends the ellipsis, splitting the word. -/
theorem C2_truncation_counterexample :
    splits_mid_word long_word = true ∧
    truncate_snippet long_word = String.mk (List.replicate 150 'a') ++ "..." := by
  constructor
  · decide
  · decide

/-- C2 (amended): the fallback snippet is the cleaned content unchanged when
its length is at most 150; otherwise it is a prefix of at most 150
characters with an ellipsis appended, where the prefix is cut at the last
space of the 150-character prefix when that prefix contains a space (so the
cut never splits mid-word in that case), and is the whole raw 150-character
prefix when it contains no space (which may split a word). -/
theorem C2_truncation_cases (c : String) :
    (c.data.length ≤ 150 → truncate_snippet c = c) ∧
    (150 < c.data.length →
      ∃ p : List Char,
        truncate_snippet c = String.mk p ++ "..." ∧
        p <+: c.data ∧ p.length ≤ 150 ∧
        ((c.data.take 150).contains ' ' = false → p = c.data.take 150) ∧
        ((c.data.take 150).contains ' ' = true →
          (∃ rest, c.data.take 150 = p ++ ' ' :: rest ∧ rest.contains ' ' = false) ∧
          splits_mid_word c = false)) := by
  constructor
  · intro h
    rw [truncate_snippet, if_neg (by omega)]
  · intro h
    refine ⟨pyRsplitHead (c.data.take 150), ?_, ?_, ?_, ?_, ?_⟩
    · rw [truncate_snippet, if_pos h]
    · exact (pyRsplitHead_pref _).trans ( List.take_prefix 150 c.data)
    · exact le_trans (pyRsplitHead_pref _).length_le (c.data.length_take_le 150)
    · exact fun hns => pyRsplitHead_no_space _ hns
    · intro hsp
      obtain ⟨rest, heq, hrest⟩ := pyRsplitHead_decomp _ hsp
      refine ⟨⟨rest, heq, hrest⟩, ?_⟩
      have hlen_eq := congrArg List.length heq
      rw [List.length_append, List.length_cons] at hlen_eq
      have hklt : (pyRsplitHead (c.data.take 150)).length < 150 := by
        have hlen : (c.data.take 150).length ≤ 150 := c.data.length_take_le 150
        omega
      have e1 : (c.data.take 150).getD (pyRsplitHead (c.data.take 150)).length ' '
          = ' ' := by
        have hb := getD_append_length (pyRsplitHead (c.data.take 150)) rest ' ' ' '
        rw [← heq] at hb
        exact hb
      have hsp_char : c.data.getD (pyRsplitHead (c.data.take 150)).length ' '
          = ' ' := by
        rw [← getD_take_eq c.data 150 _ ' ' hklt]
        exact e1
      simp only [splits_mid_word]
      simp
      intro _h1 _h2 _h3
      simpa using hsp_char

set_option maxRecDepth 40000 in
/-- Witness for C2: a short content is returned unchanged, and the
161-character `spaced_content` (100 `a`s, a space, 60 `b`s) is truncated. -/
theorem C2_truncation_cases_witness :
    (("short text").data.length ≤ 150 ∧ truncate_snippet "short text" = "short text") ∧
    (150 < spaced_content.data.length ∧
      ∃ p : List Char,
        truncate_snippet spaced_content = String.mk p ++ "..." ∧
        p <+: spaced_content.data ∧ p.length ≤ 150 ∧
        ((spaced_content.data.take 150).contains ' ' = false →
          p = spaced_content.data.take 150) ∧
        ((spaced_content.data.take 150).contains ' ' = true →
          (∃ rest, spaced_content.data.take 150 = p ++ ' ' :: rest ∧
            rest.contains ' ' = false) ∧
          splits_mid_word spaced_content = false)) :=
  ⟨⟨by decide, (C2_truncation_cases "short text").1 (by decide)⟩,
   ⟨by decide, (C2_truncation_cases spaced_content).2 (by decide)⟩⟩

/-! ## Lemmas about the handler -/

theorem py_startswith_disjoint (s a b : String)
    (ha : py_startswith s a = true)
    (hab : a.data.isPrefixOf b.data = false)
    (hba : b.data.isPrefixOf a.data = false) :
    py_startswith s b = false := by
  cases hb : py_startswith s b with
  | false => rfl
  | true =>
    exfalso
    unfold py_startswith at ha hb
    rw [ List.isPrefixOf_iff_prefix] at ha hb
    rcases List.prefix_or_prefix_of_prefix ha hb with h | h
    · rw [← List.isPrefixOf_iff_prefix] at h
      exact absurd h (by rw [hab]; exact Bool.false_ne_true)
    · rw [← List.isPrefixOf_iff_prefix] at h
      exact absurd h (by rw [hba]; exact Bool.false_ne_true)

theorem fallback_links_length (cleanf : String → String) (docs : List RagDoc) :
    (fallback_links cleanf docs).length = min 2 docs.length := by
  simp only [fallback_links, List.length_map, List.length_take]
  omega

/-! ## Claim C4: empty retrieval is a success response, not an error -/

/-- C4: when retrieval succeeds with an empty document list, the handler
returns a 200 response whose answer states that no relevant information was
found and whose links list is empty — never a pipeline failure. -/
theorem C4_empty_retrieval (req : ApiRequest) (env : PipelineEnv)
    (hjson : req.is_json = true) (hq : py_falsy req.question = false)
    (hemb : env.embed = Except.ok ()) (hret : env.retrieve = Except.ok []) :
    answer_question_api true req env
      = .ans "Sorry, I couldn't find any relevant information in the knowledge base."
          [] 200 := by
  simp [answer_question_api, pipeline_step, hjson, hq, hemb, hret]

/-- Witness for C4: the concrete valid request and empty-retrieval trace. -/
theorem C4_empty_retrieval_witness :
    answer_question_api true req₁ env_empty
      = .ans "Sorry, I couldn't find any relevant information in the knowledge base."
          [] 200 :=
  C4_empty_retrieval req₁ env_empty rfl (by decide) rfl rfl

/-! ## Claim C9: validation precedes the readiness check -/

/-- C9: a request with a missing or empty question receives a 400 error
response regardless of whether the index has loaded, and the 503
initializing response is only produced for requests with a non-empty
question. -/
theorem C9_validation_precedes_readiness (loaded : Bool) (req : ApiRequest)
    (env : PipelineEnv) :
    (py_falsy req.question = true →
      ∃ m, answer_question_api loaded req env = .err m 400) ∧
    (resp_status (answer_question_api loaded req env) = 503 →
      py_falsy req.question = false) := by
  constructor
  · intro hq
    cases hj : req.is_json with
    | false => exact ⟨"Request must be JSON", by simp [answer_question_api, hj]⟩
    | true =>
      exact ⟨"Missing 'question' in request body",
        by simp [answer_question_api, hj, hq]⟩
  · intro h503
    cases hq : py_falsy req.question with
    | false => rfl
    | true =>
      exfalso
      cases hj : req.is_json with
      | false => simp [answer_question_api, hj, resp_status] at h503
      | true => simp [answer_question_api, hj, hq, resp_status] at h503

/-- Witness for C9: a question-less request against an unloaded index store
gets a 400 error, not the 503 initializing response. -/
theorem C9_validation_precedes_readiness_witness :
    py_falsy req_noq.question = true ∧
    (∃ m, answer_question_api false req_noq env_empty = .err m 400) :=
  ⟨rfl, (C9_validation_precedes_readiness false req_noq env_empty).1 rfl⟩

/-! ## Claim C8: the no-snippet branch of the fallback path is unreachable -/

/-- C8: under the handler's preceding guard that the retrieved document list
is non-empty, the synthesized fallback links list is non-empty, so the
fallback answer is built by the links loop and the branch emitting the
no-snippet sentence is unreachable. -/
theorem C8_fallback_links_nonempty (cleanf : String → String)
    (docs : List RagDoc) (h : docs ≠ []) :
    fallback_links cleanf docs ≠ [] ∧
    fallback_answer_text (fallback_links cleanf docs)
      = (fallback_links cleanf docs).foldl render_link fallback_base := by
  have hL : 0 < docs.length := List.length_pos.mpr h
  have hlen : 0 < (fallback_links cleanf docs).length := by
    rw [fallback_links_length]; omega
  have hne : fallback_links cleanf docs ≠ [] := by
    intro hnil
    rw [hnil] at hlen
    simp at hlen
  refine ⟨hne, ?_⟩
  have hemp : (fallback_links cleanf docs).isEmpty = false := by
    cases hie : (fallback_links cleanf docs).isEmpty with
    | false => rfl
    | true => exact absurd (List.isEmpty_iff.mp hie) hne
  simp [fallback_answer_text, hemp]

/-- Witness for C8: the single-document list. -/
theorem C8_fallback_links_nonempty_witness :
    [doc₁] ≠ ([] : List RagDoc) ∧ fallback_links (fun s => s) [doc₁] ≠ [] :=
  ⟨by decide, (C8_fallback_links_nonempty (fun s => s) [doc₁] (by decide)).1⟩

/-! ## Claim C5: image payload encoding -/

/-- C5 counterexample: the claim covers every image payload string, but an
empty payload string is falsy in Python, so the handler attaches nothing at
all instead of the inline generic-binary data URI the otherwise-branch of
the claim demands. -/
theorem C5_empty_payload_counterexample :
    py_startswith "" "http://" = false ∧
    py_startswith "" "https://" = false ∧
    compute_image_url (some "") = none ∧
    compute_image_url (some "")
      ≠ some ("data:" ++ sniff_mime "" ++ ";base64," ++ "") := by
  refine ⟨?_, ?_, ?_, ?_⟩ <;> decide

/-- C5 (amended): for every non-empty image payload string, a payload
starting with `http://` or `https://` is passed through as a direct external
URL, any other payload is attached as an inline base64 data URI, the sniffed
MIME type is `image/jpeg` for signature `/9j/`, `image/png` for
`iVBORw0KGgo`, `image/webp` for `UklGR`, and `application/octet-stream`
otherwise, and the two encodings are selected by the mutually exclusive
URL-prefix test. -/
theorem C5_image_encoding (s : String) (hne : s ≠ "") :
    ((py_startswith s "http://" || py_startswith s "https://") = true →
      compute_image_url (some s) = some s) ∧
    ((py_startswith s "http://" || py_startswith s "https://") = false →
      compute_image_url (some s)
        = some ("data:" ++ sniff_mime s ++ ";base64," ++ s)) ∧
    (py_startswith s "/9j/" = true → sniff_mime s = "image/jpeg") ∧
    (py_startswith s "iVBORw0KGgo" = true → sniff_mime s = "image/png") ∧
    (py_startswith s "UklGR" = true → sniff_mime s = "image/webp") ∧
    (py_startswith s "/9j/" = false → py_startswith s "iVBORw0KGgo" = false →
      py_startswith s "UklGR" = false →
      sniff_mime s = "application/octet-stream") := by
  refine ⟨?_, ?_, ?_, ?_, ?_, ?_⟩
  · intro h
    simp [compute_image_url, hne, h]
  · intro h
    simp [compute_image_url, hne, h]
  · intro h
    simp [sniff_mime, h]
  · intro h
    have hj : py_startswith s "/9j/" = false :=
      py_startswith_disjoint s "iVBORw0KGgo" "/9j/" h (by decide) (by decide)
    simp [sniff_mime, hj, h]
  · intro h
    have hj : py_startswith s "/9j/" = false :=
      py_startswith_disjoint s "UklGR" "/9j/" h (by decide) (by decide)
    have hp : py_startswith s "iVBORw0KGgo" = false :=
      py_startswith_disjoint s "UklGR" "iVBORw0KGgo" h (by decide) (by decide)
    simp [sniff_mime, hj, hp, h]
  · intro h1 h2 h3
    simp [sniff_mime, h1, h2, h3]

/-- Witness for C5: the spec's own examples — a PNG-signature payload gets an
inline `image/png` data URI and an `https://` payload is passed through. -/
theorem C5_image_encoding_witness :
    ("iVBORw0KGgoAAAA" ≠ "" ∧
      sniff_mime "iVBORw0KGgoAAAA" = "image/png" ∧
      compute_image_url (some "iVBORw0KGgoAAAA")
        = some ("data:" ++ sniff_mime "iVBORw0KGgoAAAA" ++ ";base64,"
            ++ "iVBORw0KGgoAAAA")) ∧
    ("https://example.com/x.jpg" ≠ "" ∧
      compute_image_url (some "https://example.com/x.jpg")
        = some "https://example.com/x.jpg") :=
  ⟨⟨by decide,
    (C5_image_encoding "iVBORw0KGgoAAAA" (by decide)).2.2.2.1 (by decide),
    (C5_image_encoding "iVBORw0KGgoAAAA" (by decide)).2.1 (by decide)⟩,
   ⟨by decide,
    (C5_image_encoding "https://example.com/x.jpg" (by decide)).1 (by decide)⟩⟩

/-! ## Claim C1: link-count invariant of non-error responses -/

/-- C1 counterexample: with retrieval returning exactly one document and the
sanitizer result falsy, the fallback path produces a 2xx response whose
links array has exactly one entry, not two. -/
theorem C1_exactly_two_links_counterexample :
    env_fallback₁.retrieve = Except.ok [doc₁] ∧
    resp_status (answer_question_api true req₁ env_fallback₁) = 200 ∧
    (resp_links (answer_question_api true req₁ env_fallback₁)).length = 1 := by
  refine ⟨rfl, ?_, ?_⟩ <;> decide

/-- C1 (amended): when the handler takes the malformed-output fallback path
with a non-empty retrieved document list, the 2xx response carries exactly
`min 2 (number of retrieved documents)` links — exactly 2 whenever at least
two documents were retrieved; on the success path the handler returns the
sanitizer's links unchanged, so the link count there is whatever
`clean_json_response` produced. -/
theorem C1_fallback_link_count (req : ApiRequest) (env : PipelineEnv)
    (docs : List RagDoc) (ad : AnswerData) (a : String)
    (hjson : req.is_json = true) (hq : py_falsy req.question = false)
    (hemb : env.embed = Except.ok ()) (hret : env.retrieve = Except.ok docs)
    (hne : docs ≠ []) (hcomp : ∃ raw, env.complete = Except.ok raw) :
    (py_falsy_ans env.sanitize = true →
      answer_question_api true req env = fallback_response env.clean_content docs ∧
      resp_status (answer_question_api true req env) = 200 ∧
      (resp_links (answer_question_api true req env)).length = min 2 docs.length ∧
      (2 ≤ docs.length →
        (resp_links (answer_question_api true req env)).length = 2)) ∧
    (env.sanitize = some ad → ad.answer = some a → a ≠ "" →
      answer_question_api true req env
        = .ans ((a.replace "\n" " ").trim) ad.links 200) := by
  obtain ⟨raw, hcomp⟩ := hcomp
  constructor
  · intro hsan
    have hmain : answer_question_api true req env
        = fallback_response env.clean_content docs := by
      cases hs : env.sanitize with
      | none =>
        simp [answer_question_api, pipeline_step, hjson, hq, hemb, hret, hne,
          hcomp, hs]
      | some ad' =>
        rw [hs] at hsan
        cases ha : ad'.answer with
        | none =>
          simp [answer_question_api, pipeline_step, hjson, hq, hemb, hret, hne,
            hcomp, hs, ha]
        | some a' =>
          have ha' : a' = "" := by
            rw [py_falsy_ans, ha] at hsan
            simpa [py_falsy] using hsan
          simp [answer_question_api, pipeline_step, hjson, hq, hemb, hret, hne,
            hcomp, hs, ha, ha']
    have hlinks : resp_links (answer_question_api true req env)
        = fallback_links env.clean_content docs := by
      rw [hmain]
      simp [fallback_response, resp_links]
    refine ⟨hmain, ?_, ?_, ?_⟩
    · rw [hmain]
      simp [fallback_response, resp_status]
    · rw [hlinks, fallback_links_length]
    · intro h2
      rw [hlinks, fallback_links_length]
      omega
  · intro hs ha hane
    simp [answer_question_api, pipeline_step, hjson, hq, hemb, hret, hne,
      hcomp, hs, ha, hane]

/-- Witness for C1: with two retrieved documents the fallback path emits
exactly two links. -/
theorem C1_fallback_link_count_witness :
    py_falsy_ans env_fallback₂.sanitize = true ∧
    (resp_links (answer_question_api true req₁ env_fallback₂)).length = 2 :=
  ⟨rfl,
   ((C1_fallback_link_count req₁ env_fallback₂ [doc₁, doc₂] ⟨none, []⟩ "x"
      rfl (by decide) rfl rfl (by decide) ⟨"not json", rfl⟩).1 rfl).2.2.2
     (by decide)⟩

/-! ## Claim C3: stage errors and exception detail -/

/-- C3 counterexample: the claim says no internal exception detail reaches
the response body, but when embedding generation raises an exception with
message `boom`, the f-string interpolation puts that message verbatim into
the answer field of the 500 response. -/
theorem C3_exception_detail_exposed :
    answer_question_api true req₁ env_boom
      = .ans "Error generating question embedding: boom" [] 500 ∧
    "boom".data.IsInfix
      (resp_body_text (answer_question_api true req₁ env_boom)).data := by
  constructor
  · decide
  · decide

/-- C3 (amended): every embedding, retrieval, or completion error is caught
at its stage boundary and converted into a 500 response with empty links
whose answer names the failed stage and interpolates the exception's own
message text — so the exception message (though not a stack trace) is
exposed to the caller. -/
theorem C3_stage_error_conversion (req : ApiRequest) (env : PipelineEnv)
    (e : String) (docs : List RagDoc)
    (hjson : req.is_json = true) (hq : py_falsy req.question = false) :
    (env.embed = Except.error e →
      answer_question_api true req env
        = .ans ("Error generating question embedding: " ++ e) [] 500) ∧
    (env.embed = Except.ok () → env.retrieve = Except.error e →
      answer_question_api true req env
        = .ans ("Error retrieving relevant information: " ++ e) [] 500) ∧
    (env.embed = Except.ok () → env.retrieve = Except.ok docs → docs ≠ [] →
      env.complete = Except.error e →
      answer_question_api true req env
        = .ans ("Error communicating with AI model: " ++ e) [] 500) := by
  refine ⟨?_, ?_, ?_⟩
  · intro hemb
    simp [answer_question_api, pipeline_step, hjson, hq, hemb]
  · intro hemb hret
    simp [answer_question_api, pipeline_step, hjson, hq, hemb, hret]
  · intro hemb hret hne hcomp
    simp [answer_question_api, pipeline_step, hjson, hq, hemb, hret, hne, hcomp]

/-- Witness for C3: a retrieval failure with message `down` is converted to
the stage-labelled 500 response. -/
theorem C3_stage_error_conversion_witness :
    answer_question_api true req₁
        ⟨fun s => s, Except.ok (), Except.error "down", Except.ok "", none⟩
      = .ans ("Error retrieving relevant information: " ++ "down") [] 500 :=
  (C3_stage_error_conversion req₁
      ⟨fun s => s, Except.ok (), Except.error "down", Except.ok "", none⟩
      "down" [] rfl (by decide)).2.1 rfl rfl

/-! ## Claim C6: failure responses, initializing response, fatal startup -/

/-- C6: each stage failure yields a `{answer, links: []}` response with
non-2xx status 500; a valid request arriving before the index store has
loaded receives the distinct 503 initializing response; and at startup a
load failure exits the process with code 1 while a successful load serves
the assets — per-request failures always produce a response, never an
exit. -/
theorem C6_failure_and_startup (req : ApiRequest) (env : PipelineEnv)
    (e : String) (docs : List RagDoc) (α : Type) (assets : α) (er : String)
    (hjson : req.is_json = true) (hq : py_falsy req.question = false) :
    (env.embed = Except.error e →
      answer_question_api true req env
        = .ans ("Error generating question embedding: " ++ e) [] 500) ∧
    (env.embed = Except.ok () → env.retrieve = Except.error e →
      answer_question_api true req env
        = .ans ("Error retrieving relevant information: " ++ e) [] 500) ∧
    (env.embed = Except.ok () → env.retrieve = Except.ok docs → docs ≠ [] →
      env.complete = Except.error e →
      answer_question_api true req env
        = .ans ("Error communicating with AI model: " ++ e) [] 500) ∧
    (answer_question_api false req env
      = .ans "Server is still initializing. Please try again in a moment."
          [] 503) ∧
    startup (Except.error er) = (StartupResult.exited 1 : StartupResult α) ∧
    startup (Except.ok assets) = StartupResult.serving assets := by
  refine ⟨?_, ?_, ?_, ?_, rfl, rfl⟩
  · intro hemb
    simp [answer_question_api, pipeline_step, hjson, hq, hemb]
  · intro hemb hret
    simp [answer_question_api, pipeline_step, hjson, hq, hemb, hret]
  · intro hemb hret hne hcomp
    simp [answer_question_api, pipeline_step, hjson, hq, hemb, hret, hne, hcomp]
  · simp [answer_question_api, hjson, hq]

/-- Witness for C6: an embedding failure gives the 500 response, and the
same request against an unloaded store gives the 503 initializing
response. -/
theorem C6_failure_and_startup_witness :
    answer_question_api true req₁ env_boom
      = .ans ("Error generating question embedding: " ++ "boom") [] 500 ∧
    answer_question_api false req₁ env_boom
      = .ans "Server is still initializing. Please try again in a moment."
          [] 503 ∧
    startup (Except.error "io error") = (StartupResult.exited 1 : StartupResult Nat) :=
  ⟨(C6_failure_and_startup req₁ env_boom "boom" [] Nat 0 "io error"
      rfl (by decide)).1 rfl,
   (C6_failure_and_startup req₁ env_boom "boom" [] Nat 0 "io error"
      rfl (by decide)).2.2.2.1,
   (C6_failure_and_startup req₁ env_boom "boom" [] Nat 0 "io error"
      rfl (by decide)).2.2.2.2.1⟩
